import Mathlib

/-!
# bluez-tools: the `org.bluez.Audio` proxy object (`src/lib/audio.c`)

A shallow embedding of `audio.c`.  The GObject instance is a record, the
D-Bus client library and the remote peer are an explicit `World` that is
threaded through every function: the calls made into the library are logged
in `World.trace`, the local `PropertyChanged` emissions in `World.emitted`,
and the answers of the library (which the file does not control) are read
from the `DBusLib` record.  A failed `g_assert` is an `Except.error` carrying
the text of the failed assertion; so is a second release of the same storage.
-/

namespace BluezAudio

/-! ## GLib / dbus-glib data -/

/-- GLib error report: error domain (a quark), code and message. -/
structure GError where
  domain : Nat
  code : Int
  message : String
  deriving DecidableEq, Repr

/-- The variant payloads that can reach this file.  A value of type
`G_TYPE_STRING` may hold the NULL string (`string none`). -/
inductive GValue where
  | string (s : Option String)
  | boolean (b : Bool)
  | int (i : Int)
  | uint (n : Nat)
  deriving DecidableEq, Repr

/-- GLib type tags named in `audio.c`. -/
inductive GType where
  | STRING
  | VALUE
  | STRING_VARIANT_HASHTABLE
  deriving DecidableEq, Repr

/-- The dictionary `dict<string,variant>` (`DBUS_TYPE_G_STRING_VARIANT_HASHTABLE`),
as an association list; the first binding of a key is the one that counts. -/
abbrev GHashTable := List (String × GValue)

/-- Handle of a bus connection (`DBusGConnection *`, when not NULL). -/
structure DBusGConnection where
  id : Nat
  deriving DecidableEq, Repr

/-- Remote object proxy of dbus-glib (`DBusGProxy *`, when not NULL). -/
structure DBusGProxy where
  name : String
  path : String
  iface : String
  deriving DecidableEq, Repr

/-- The callbacks that `audio.c` registers on the remote proxy. -/
inductive Callback where
  | property_changed_handler
  deriving DecidableEq, Repr

/-- One call made out of `audio.c`: into dbus-glib on a proxy pointer (`none` is
NULL), or, for `parent_dispose`, into the `dispose` of the parent class
(`G_OBJECT_CLASS(audio_parent_class)->dispose`). -/
inductive LibCall where
  | add_signal (proxy : Option DBusGProxy) (signal_name : String) (types : List GType)
  | connect_signal (proxy : Option DBusGProxy) (signal_name : String) (handler : Callback)
  | disconnect_signal (proxy : Option DBusGProxy) (signal_name : String) (handler : Callback)
  | call (proxy : Option DBusGProxy) (method : String) (in_args : List GValue)
      (out_types : List GType)
  | parent_dispose
  deriving DecidableEq, Repr

/-- What `dbus_g_proxy_call` hands back: `success out` is a TRUE return with the
out value stored (possibly NULL); `failure e` is a FALSE return, with `e` what was
stored through the `GError **` argument (`none`: nothing was stored). -/
inductive CallResult where
  | success (out : Option GHashTable)
  | failure (error : Option GError)
  deriving DecidableEq, Repr

/-- Behaviour of what lies outside `audio.c`: the bus name constant of
`dbus-common.h`, proxy creation, and the outcome of a blocking method call,
which may depend on everything the library was asked before. -/
structure DBusLib where
  BLUEZ_DBUS_NAME : String
  new_for_name : DBusGConnection → String → String → String → Option DBusGProxy
  call : List LibCall → Option DBusGProxy → String → CallResult

/-! ## The object -/

/-- The struct `_AudioPrivate`. -/
structure AudioPrivate where
  dbus_g_proxy : Option DBusGProxy
  state : Option String
  deriving DecidableEq, Repr

/-- The instance struct `Audio` (its `priv` pointer followed). -/
structure Audio where
  priv : AudioPrivate
  deriving DecidableEq, Repr

/-- The pointer `self->priv->state` together with the storage behind it: NULL, a
live string, or a pointer to a string that `g_free` has released (the pointer
itself is still there, what it pointed to is gone). -/
inductive StatePtr where
  | null
  | live (s : String)
  | freed
  deriving DecidableEq, Repr

/-- The instance as the teardown routine handles it: the private fields, with the
storage of the state string made explicit. -/
structure AudioInstance where
  dbus_g_proxy : Option DBusGProxy
  state : StatePtr
  deriving DecidableEq, Repr

/-- An instance that no teardown has touched yet: its state pointer is NULL or
points to a live string. -/
def live_instance (self : Audio) : AudioInstance :=
  { dbus_g_proxy := self.priv.dbus_g_proxy
    state := match self.priv.state with
      | none => StatePtr.null
      | some s => StatePtr.live s }

/-- Local signals of the class (`enum { PROPERTY_CHANGED, LAST_SIGNAL }`). -/
inductive Signal where
  | PROPERTY_CHANGED
  deriving DecidableEq, Repr

/-- One run of `g_signal_emit`: the handlers connected to the local signal are
invoked synchronously with the instance as it is at that moment and the two
signal arguments. -/
structure Emission where
  object : Audio
  signal : Signal
  name : String
  value : GValue
  deriving DecidableEq, Repr

/-- Everything outside the instance: the process-wide `conn`, the library, the
log of library calls and the log of local emissions. -/
structure World where
  conn : Option DBusGConnection
  lib : DBusLib
  trace : List LibCall
  emitted : List Emission

/-- Result of a method that takes a `GError **error` out-parameter: the world
and instance afterwards, the C return value, and what was stored through `error`. -/
structure CallRet (α : Type) where
  world : World
  self : Audio
  ret : α
  error : Option GError

def BLUEZ_DBUS_AUDIO_INTERFACE : String := "org.bluez.Audio"

def PROP_0 : Nat := 0

def PROP_DBUS_OBJECT_PATH : Nat := 1

def PROP_STATE : Nat := 2

/-! ## Library functions used by the file -/

/-- GLib `g_value_get_string`: the string held, NULL when the value is not of
string type (the `g_return_val_if_fail` path). -/
def g_value_get_string : GValue → Option String
  | .string s => s
  | _ => none

/-- GLib `g_value_dup_string`: a copy of the string held, NULL when the value
is not of string type (the `g_return_val_if_fail` path). -/
def g_value_dup_string : GValue → Option String
  | .string s => s
  | _ => none

/-- GLib `g_hash_table_lookup`: the value bound to the key, NULL when absent. -/
def g_hash_table_lookup : GHashTable → String → Option GValue
  | [], _ => none
  | (k, v) :: rest, key => if k = key then some v else g_hash_table_lookup rest key

/-- dbus-glib `dbus_g_proxy_new_for_name`: NULL without a connection. -/
def dbus_g_proxy_new_for_name (w : World) (connection : Option DBusGConnection)
    (name path iface : String) : Option DBusGProxy :=
  match connection with
  | none => none
  | some c => w.lib.new_for_name c name path iface

/-- dbus-glib `dbus_g_proxy_get_path`. -/
def dbus_g_proxy_get_path (proxy : Option DBusGProxy) : Option String :=
  match proxy with
  | none => none
  | some p => some p.path

def dbus_g_proxy_add_signal (w : World) (proxy : Option DBusGProxy) (signal_name : String)
    (types : List GType) : World :=
  { w with trace := w.trace ++ [LibCall.add_signal proxy signal_name types] }

def dbus_g_proxy_connect_signal (w : World) (proxy : Option DBusGProxy)
    (signal_name : String) (handler : Callback) : World :=
  { w with trace := w.trace ++ [LibCall.connect_signal proxy signal_name handler] }

def dbus_g_proxy_disconnect_signal (w : World) (proxy : Option DBusGProxy)
    (signal_name : String) (handler : Callback) : World :=
  { w with trace := w.trace ++ [LibCall.disconnect_signal proxy signal_name handler] }

/-- dbus-glib `dbus_g_proxy_call`: one blocking method call; the call is logged
and the library decides the outcome. -/
def dbus_g_proxy_call (w : World) (proxy : Option DBusGProxy) (method : String)
    (in_args : List GValue) (out_types : List GType) : World × CallResult :=
  ({ w with trace := w.trace ++ [LibCall.call proxy method in_args out_types] },
   w.lib.call w.trace proxy method)

/-- GLib `g_free` applied to the state pointer, giving what the (unchanged) pointer
refers to afterwards: nothing happens for NULL, a live string is released, and
releasing storage that was already released is undefined behaviour (an error). -/
def g_free : StatePtr → Except String StatePtr
  | .null => .ok StatePtr.null
  | .live _ => .ok StatePtr.freed
  | .freed => .error "g_free(self->priv->state): storage already released"

/-- The chain-up `G_OBJECT_CLASS(audio_parent_class)->dispose(gobject)`. -/
def parent_class_dispose (w : World) : World :=
  { w with trace := w.trace ++ [LibCall.parent_dispose] }

/-- GLib `g_signal_emit` on the local signal. -/
def g_signal_emit (w : World) (self : Audio) (signal : Signal) (name : String)
    (value : GValue) : World :=
  { w with emitted := w.emitted ++ [Emission.mk self signal name value] }

/-! ## `audio.c` -/

/-- The function `audio_dispose` (lines 65-77): disconnects the handler (line 70),
frees the state string (line 73; the field is not reset, so it is left pointing to
released storage) and chains up to the parent class (line 76).  The world is the
one reached when the run ends; the run ends in an error, before the chain-up, when
the `g_free` is a second release of the same storage. -/
def audio_dispose (w : World) (self : AudioInstance) : World × Except String AudioInstance :=
  let w1 := dbus_g_proxy_disconnect_signal w self.dbus_g_proxy "PropertyChanged"
    Callback.property_changed_handler
  match g_free self.state with
  | .error a => (w1, .error a)
  | .ok state1 => (parent_class_dispose w1, .ok { self with state := state1 })

/-- The function `audio_init` (lines 110-115): the private struct starts zeroed;
asserts that the global connection exists. -/
def audio_init (w : World) : Except String Audio :=
  match w.conn with
  | none => .error "conn != NULL"
  | some _ => .ok { priv := { dbus_g_proxy := none, state := none } }

/-- The function `audio_connect` (lines 186-191). -/
def audio_connect (w : World) (self : Audio) : CallRet Unit :=
  match dbus_g_proxy_call w self.priv.dbus_g_proxy "Connect" [] [] with
  | (w1, .success _) => { world := w1, self := self, ret := (), error := none }
  | (w1, .failure e) => { world := w1, self := self, ret := (), error := e }

/-- The function `audio_disconnect` (lines 194-199). -/
def audio_disconnect (w : World) (self : Audio) : CallRet Unit :=
  match dbus_g_proxy_call w self.priv.dbus_g_proxy "Disconnect" [] [] with
  | (w1, .success _) => { world := w1, self := self, ret := (), error := none }
  | (w1, .failure e) => { world := w1, self := self, ret := (), error := e }

/-- The function `audio_get_properties` (lines 202-212): NULL when the call
returned FALSE, the out value otherwise. -/
def audio_get_properties (w : World) (self : Audio) : CallRet (Option GHashTable) :=
  match dbus_g_proxy_call w self.priv.dbus_g_proxy "GetProperties" []
      [GType.STRING_VARIANT_HASHTABLE] with
  | (w1, .failure e) => { world := w1, self := self, ret := none, error := e }
  | (w1, .success out) => { world := w1, self := self, ret := out, error := none }

/-- The function `audio_get_dbus_object_path` (lines 215-220). -/
def audio_get_dbus_object_path (self : Audio) : Option String :=
  dbus_g_proxy_get_path self.priv.dbus_g_proxy

/-- The function `audio_get_state` (lines 222-227). -/
def audio_get_state (self : Audio) : Option String :=
  self.priv.state

/-- The function `audio_post_init` (lines 117-141). -/
def audio_post_init (w : World) (self : Audio) : Except String (World × Audio) :=
  match self.priv.dbus_g_proxy with
  | none => .error "self->priv->dbus_g_proxy != NULL"
  | some _ =>
    let w1 := dbus_g_proxy_add_signal w self.priv.dbus_g_proxy "PropertyChanged"
      [GType.STRING, GType.VALUE]
    let w2 := dbus_g_proxy_connect_signal w1 self.priv.dbus_g_proxy "PropertyChanged"
      Callback.property_changed_handler
    let r := audio_get_properties w2 self
    match r.error with
    | some _ => .error "error == NULL"
    | none =>
      match r.ret with
      | none => .error "properties != NULL"
      | some properties =>
        match g_hash_table_lookup properties "State" with
        | some v =>
          .ok (r.world, { priv := { r.self.priv with state := g_value_dup_string v } })
        | none =>
          .ok (r.world, { priv := { r.self.priv with state := some "undefined" } })

/-- The function `_audio_get_property` (lines 143-160): the value written to the
`GValue`, `none` for an unknown property id (only a warning is logged). -/
def _audio_get_property (self : Audio) (property_id : Nat) : Option GValue :=
  if property_id = PROP_DBUS_OBJECT_PATH then
    some (GValue.string (audio_get_dbus_object_path self))
  else if property_id = PROP_STATE then
    some (GValue.string (audio_get_state self))
  else none

/-- The function `_audio_set_property` (lines 162-181). -/
def _audio_set_property (w : World) (self : Audio) (property_id : Nat) (value : GValue) :
    Except String (World × Audio) :=
  if property_id = PROP_DBUS_OBJECT_PATH then
    match g_value_get_string value with
    | none => .error "dbus_object_path != NULL"
    | some dbus_object_path =>
      match self.priv.dbus_g_proxy with
      | some _ => .error "self->priv->dbus_g_proxy == NULL"
      | none =>
        audio_post_init w
          { priv := { self.priv with
              dbus_g_proxy := dbus_g_proxy_new_for_name w w.conn w.lib.BLUEZ_DBUS_NAME
                dbus_object_path BLUEZ_DBUS_AUDIO_INTERFACE } }
  else .ok (w, self)

/-- The function `property_changed_handler` (lines 230-240). -/
def property_changed_handler (w : World) (self : Audio) (name : String) (value : GValue) :
    World × Audio :=
  let self1 : Audio :=
    if name = "State" then { priv := { self.priv with state := g_value_dup_string value } }
    else self
  (g_signal_emit w self1 Signal.PROPERTY_CHANGED name value, self1)

/-- Construction, as the GObject type system runs it for
`g_object_new(AUDIO_TYPE, "DBusObjectPath", path, NULL)`: instance initialisation,
then the construct-only property is set. -/
def audio_construct (w : World) (dbus_object_path : Option String) :
    Except String (World × Audio) :=
  match audio_init w with
  | .error a => .error a
  | .ok self => _audio_set_property w self PROP_DBUS_OBJECT_PATH (GValue.string dbus_object_path)

/-! ## Sequences of operations on a live object -/

/-- What can happen to a constructed object: a notification is delivered to
`property_changed_handler`, or a caller invokes one of the public functions. -/
inductive Op where
  | notify (name : String) (value : GValue)
  | connect
  | disconnect
  | getProperties
  | getState
  | getDbusObjectPath
  deriving DecidableEq, Repr

/-- One operation, run by the function of `audio.c` that serves it. -/
def step (ws : World × Audio) : Op → World × Audio
  | .notify name value => property_changed_handler ws.1 ws.2 name value
  | .connect => ((audio_connect ws.1 ws.2).world, (audio_connect ws.1 ws.2).self)
  | .disconnect => ((audio_disconnect ws.1 ws.2).world, (audio_disconnect ws.1 ws.2).self)
  | .getProperties =>
    ((audio_get_properties ws.1 ws.2).world, (audio_get_properties ws.1 ws.2).self)
  | .getState => ws
  | .getDbusObjectPath => ws

/-- The operations run in order. -/
def run (ws : World × Audio) (ops : List Op) : World × Audio :=
  ops.foldl step ws

/-- The value carried by the last notification of the sequence whose key is
"State", when there is one. -/
def lastStateNotification : List Op → Option GValue
  | [] => none
  | op :: rest =>
    match lastStateNotification rest with
    | some v => some v
    | none =>
      match op with
      | .notify name value => if name = "State" then some value else none
      | _ => none

/-- The teardown routine run `n` times in a row on the same instance; a run that
ends in an error ends the sequence. -/
def dispose_times : Nat → World → AudioInstance → World × Except String AudioInstance
  | 0, w, self => (w, .ok self)
  | n + 1, w, self =>
    match audio_dispose w self with
    | (w1, .ok self1) => dispose_times n w1 self1
    | (w1, .error a) => (w1, .error a)

/-- The number of handler disconnections among a list of library calls. -/
def count_disconnects : List LibCall → Nat
  | [] => 0
  | .disconnect_signal _ _ _ :: rest => count_disconnects rest + 1
  | _ :: rest => count_disconnects rest

/-- The outcome the library gives to the `GetProperties` call that construction
makes on the freshly bound proxy `p`: by then `audio_post_init` has declared and
connected the `PropertyChanged` signal, in that order. -/
def initial_fetch (w : World) (p : DBusGProxy) : CallResult :=
  w.lib.call
    (w.trace ++ [LibCall.add_signal (some p) "PropertyChanged" [GType.STRING, GType.VALUE]]
      ++ [LibCall.connect_signal (some p) "PropertyChanged"
            Callback.property_changed_handler])
    (some p) "GetProperties"

/-- The instance that a completed construction leaves, when it completes. -/
def constructed (r : Except String (World × Audio)) : Option Audio :=
  match r with
  | .ok (_, self) => some self
  | .error _ => none

/-- Whether a construction stopped on a failed assertion. -/
def aborted (r : Except String (World × Audio)) : Bool :=
  match r with
  | .ok _ => false
  | .error _ => true

/-! ## Concrete data for the worked instances -/

/-- A library whose every method call has the outcome `r`. -/
def sampleLib (r : CallResult) : DBusLib :=
  { BLUEZ_DBUS_NAME := "org.bluez"
    new_for_name := fun _ name path iface => some (DBusGProxy.mk name path iface)
    call := fun _ _ _ => r }

/-- A fresh world with a bus connection. -/
def sampleWorld (r : CallResult) : World :=
  { conn := some (DBusGConnection.mk 1), lib := sampleLib r, trace := [], emitted := [] }

def sampleProxy : DBusGProxy :=
  DBusGProxy.mk "org.bluez" "/org/bluez/hci0/dev_00_11_22_33_44_55" "org.bluez.Audio"

/-- A constructed object whose cache holds "disconnected". -/
def sampleAudio : Audio :=
  { priv := { dbus_g_proxy := some sampleProxy, state := some "disconnected" } }

def sampleError : GError :=
  { domain := 7, code := 4, message := "Did not receive a reply" }

def samplePath : String := "/org/bluez/hci0/dev_00_11_22_33_44_55"

/-- A property mapping with a string "State". -/
def sampleProperties : GHashTable := [("State", GValue.string (some "connected"))]

/-- A property mapping whose "State" entry is an unsigned integer. -/
def malformedProperties : GHashTable := [("State", GValue.uint 3)]

/-- A constructed object whose cache is NULL (as left by `malformedProperties`). -/
def sampleNullStateAudio : Audio :=
  { priv := { dbus_g_proxy := some sampleProxy, state := none } }

/-- The world right after a construction on `sampleProxy`: the signal was declared
and connected and the properties were fetched once. -/
def sampleLiveWorld : World :=
  { conn := some (DBusGConnection.mk 1)
    lib := sampleLib (CallResult.success none)
    trace := [LibCall.add_signal (some sampleProxy) "PropertyChanged"
                [GType.STRING, GType.VALUE],
              LibCall.connect_signal (some sampleProxy) "PropertyChanged"
                Callback.property_changed_handler,
              LibCall.call (some sampleProxy) "GetProperties" []
                [GType.STRING_VARIANT_HASHTABLE]]
    emitted := [] }

/-! ## Theorems -/

/-- C1: a `PropertyChanged("State", v)` notification with a string value `v` leaves
`audio_get_state` equal to `v` and appends exactly one local `PropertyChanged`
emission, with arguments `("State", v)`. -/
theorem property_changed_state_sets_cache_and_emits_once (w : World) (self : Audio)
    (v : String) :
    audio_get_state (property_changed_handler w self "State" (GValue.string (some v))).2
        = some v ∧
      ∃ e : Emission,
        (property_changed_handler w self "State" (GValue.string (some v))).1.emitted
            = w.emitted ++ [e] ∧
          e.signal = Signal.PROPERTY_CHANGED ∧ e.name = "State" ∧
          e.value = GValue.string (some v) := by
  refine ⟨by simp [property_changed_handler, audio_get_state, g_value_dup_string], ?_⟩
  refine ⟨Emission.mk (property_changed_handler w self "State" (GValue.string (some v))).2
    Signal.PROPERTY_CHANGED "State" (GValue.string (some v)), ?_, rfl, rfl, rfl⟩
  simp [property_changed_handler, g_signal_emit]

/-- C2 (as stated, refuted): the notification `PropertyChanged("Connected", true)`,
whose key is not "State", makes the handler emit one local event. -/
theorem non_state_notification_is_forwarded_example :
    "Connected" ≠ "State" ∧
      (sampleWorld (CallResult.success none)).emitted = [] ∧
      (property_changed_handler (sampleWorld (CallResult.success none)) sampleAudio
          "Connected" (GValue.boolean true)).1.emitted
        = [Emission.mk sampleAudio Signal.PROPERTY_CHANGED "Connected"
            (GValue.boolean true)] := by
  refine ⟨by decide, rfl, ?_⟩
  simp [property_changed_handler, g_signal_emit, sampleWorld]

/-- C2 (amended): for every key different from "State" and every value the handler
forwards the notification: exactly one local `PropertyChanged` emission is appended,
carrying the same key and value. -/
theorem non_state_notification_emits_once (w : World) (self : Audio) (name : String)
    (value : GValue) (hname : name ≠ "State") :
    (property_changed_handler w self name value).1.emitted
      = w.emitted ++ [Emission.mk self Signal.PROPERTY_CHANGED name value] := by
  simp [property_changed_handler, g_signal_emit, hname]

theorem non_state_notification_emits_once_witness :
    "Connected" ≠ "State" ∧
      (property_changed_handler (sampleWorld (CallResult.success none)) sampleAudio
          "Connected" (GValue.boolean true)).1.emitted
        = (sampleWorld (CallResult.success none)).emitted
            ++ [Emission.mk sampleAudio Signal.PROPERTY_CHANGED "Connected"
              (GValue.boolean true)] :=
  ⟨by decide,
   non_state_notification_emits_once (sampleWorld (CallResult.success none)) sampleAudio
     "Connected" (GValue.boolean true) (by decide)⟩

/-- C3: a notification whose key is not "State" leaves the instance as it was:
`audio_get_state` and `audio_get_dbus_object_path` return what they returned before. -/
theorem non_state_notification_keeps_cache (w : World) (self : Audio) (name : String)
    (value : GValue) (hname : name ≠ "State") :
    (property_changed_handler w self name value).2 = self ∧
      audio_get_state (property_changed_handler w self name value).2
        = audio_get_state self ∧
      audio_get_dbus_object_path (property_changed_handler w self name value).2
        = audio_get_dbus_object_path self := by
  have h : (property_changed_handler w self name value).2 = self := by
    simp [property_changed_handler, hname]
  exact ⟨h, by rw [h], by rw [h]⟩

theorem non_state_notification_keeps_cache_witness :
    "Connected" ≠ "State" ∧
      audio_get_state (property_changed_handler (sampleWorld (CallResult.success none))
          sampleAudio "Connected" (GValue.boolean true)).2 = some "disconnected" :=
  ⟨by decide,
   (non_state_notification_keeps_cache (sampleWorld (CallResult.success none)) sampleAudio
     "Connected" (GValue.boolean true) (by decide)).2.1⟩

/-- C10: in the handler the cache is written before the local signal is emitted:
for a "State" notification with string value `v`, the one emission hands the
connected handlers the instance as returned by the handler, on which
`audio_get_state` already gives `v`. -/
theorem state_emission_observes_new_value (w : World) (self : Audio) (v : String) :
    ∃ e : Emission,
      (property_changed_handler w self "State" (GValue.string (some v))).1.emitted
          = w.emitted ++ [e] ∧
        e.object = (property_changed_handler w self "State" (GValue.string (some v))).2 ∧
        audio_get_state e.object = some v := by
  refine ⟨Emission.mk (property_changed_handler w self "State" (GValue.string (some v))).2
    Signal.PROPERTY_CHANGED "State" (GValue.string (some v)), ?_, rfl, ?_⟩
  · simp [property_changed_handler, g_signal_emit]
  · simp [property_changed_handler, audio_get_state, g_value_dup_string]

/-- Construction with a connection, an object path and a bound proxy, in terms of
the outcome of the initial fetch. -/
theorem audio_construct_eq (w : World) (c : DBusGConnection) (path : String)
    (p : DBusGProxy) (hconn : w.conn = some c)
    (hproxy : w.lib.new_for_name c w.lib.BLUEZ_DBUS_NAME path BLUEZ_DBUS_AUDIO_INTERFACE
      = some p) :
    constructed (audio_construct w (some path))
        = (match initial_fetch w p with
          | .success (some m) =>
            some { priv := { dbus_g_proxy := some p,
                             state := match g_hash_table_lookup m "State" with
                               | some v => g_value_dup_string v
                               | none => some "undefined" } }
          | _ => none) ∧
      aborted (audio_construct w (some path))
        = (match initial_fetch w p with
          | .success (some _) => false
          | _ => true) := by
  have hfetch : w.lib.call
      (w.trace ++ [LibCall.add_signal (some p) "PropertyChanged" [GType.STRING, GType.VALUE]]
        ++ [LibCall.connect_signal (some p) "PropertyChanged"
              Callback.property_changed_handler])
      (some p) "GetProperties" = initial_fetch w p := rfl
  simp only [audio_construct, audio_init, hconn, _audio_set_property, if_true,
    g_value_get_string, dbus_g_proxy_new_for_name, hproxy, audio_post_init,
    audio_get_properties, dbus_g_proxy_call, dbus_g_proxy_add_signal,
    dbus_g_proxy_connect_signal, hfetch]
  cases initial_fetch w p with
  | failure e =>
    cases e <;> simp [constructed, aborted]
  | success out =>
    cases out with
    | none => simp [constructed, aborted]
    | some m =>
      cases hl : g_hash_table_lookup m "State" <;> simp [hl, constructed, aborted]

/-- C4: when the initial `GetProperties` call returns the mapping `m`, construction
completes and `audio_get_state` gives the string bound to "State" in `m` when `m`
has that key, and the literal "undefined" when it has not. -/
theorem construct_seeds_state (w : World) (c : DBusGConnection) (path : String)
    (p : DBusGProxy) (m : GHashTable) (hconn : w.conn = some c)
    (hproxy : w.lib.new_for_name c w.lib.BLUEZ_DBUS_NAME path BLUEZ_DBUS_AUDIO_INTERFACE
      = some p)
    (hfetch : initial_fetch w p = CallResult.success (some m)) :
    ∃ self : Audio,
      constructed (audio_construct w (some path)) = some self ∧
        (∀ s : String, g_hash_table_lookup m "State" = some (GValue.string (some s)) →
          audio_get_state self = some s) ∧
        (g_hash_table_lookup m "State" = none → audio_get_state self = some "undefined") ∧
        audio_get_state self
          = (match g_hash_table_lookup m "State" with
            | some v => g_value_dup_string v
            | none => some "undefined") := by
  have h := (audio_construct_eq w c path p hconn hproxy).1
  rw [hfetch] at h
  refine ⟨_, h, ?_, ?_, rfl⟩
  · intro s hs
    simp [audio_get_state, hs, g_value_dup_string]
  · intro hn
    simp [audio_get_state, hn]

theorem construct_seeds_state_witness :
    ∃ self : Audio,
      constructed (audio_construct (sampleWorld (CallResult.success (some sampleProperties)))
          (some samplePath)) = some self ∧
        audio_get_state self = some "connected" := by
  obtain ⟨self, h1, h2, _, _⟩ :=
    construct_seeds_state (sampleWorld (CallResult.success (some sampleProperties)))
      (DBusGConnection.mk 1) samplePath sampleProxy sampleProperties rfl rfl rfl
  exact ⟨self, h1, h2 "connected" (by decide)⟩

/-- C9 (as stated, refuted): the initial fetch succeeds with a mapping whose "State"
entry is an unsigned integer; construction does not stop on an assertion, it
completes with a NULL state. -/
theorem construct_completes_on_non_string_state :
    g_hash_table_lookup malformedProperties "State" = some (GValue.uint 3) ∧
      aborted (audio_construct (sampleWorld (CallResult.success (some malformedProperties)))
          (some samplePath)) = false ∧
      constructed (audio_construct (sampleWorld (CallResult.success (some malformedProperties)))
          (some samplePath))
        = some { priv := { dbus_g_proxy := some sampleProxy, state := none } } := by
  refine ⟨by decide, ?_, ?_⟩
  · exact (audio_construct_eq (sampleWorld (CallResult.success (some malformedProperties)))
      (DBusGConnection.mk 1) samplePath sampleProxy rfl rfl).2
  · exact (audio_construct_eq (sampleWorld (CallResult.success (some malformedProperties)))
      (DBusGConnection.mk 1) samplePath sampleProxy rfl rfl).1

/-- C9 (amended): with a bus connection, an object path and a bound proxy,
construction stops on a failed assertion exactly when the initial fetch returns
FALSE (with or without an error stored) or returns no mapping; whenever the fetch
returns a mapping, construction completes. -/
theorem construct_aborts_iff_fetch_fails (w : World) (c : DBusGConnection) (path : String)
    (p : DBusGProxy) (hconn : w.conn = some c)
    (hproxy : w.lib.new_for_name c w.lib.BLUEZ_DBUS_NAME path BLUEZ_DBUS_AUDIO_INTERFACE
      = some p) :
    (aborted (audio_construct w (some path)) = true ↔
      ((∃ e, initial_fetch w p = CallResult.failure e) ∨
        initial_fetch w p = CallResult.success none)) ∧
    (∀ m, initial_fetch w p = CallResult.success (some m) →
      ∃ self, constructed (audio_construct w (some path)) = some self) := by
  obtain ⟨h1, h2⟩ := audio_construct_eq w c path p hconn hproxy
  rw [h1, h2]
  cases initial_fetch w p with
  | failure e => simp
  | success out => cases out <;> simp

theorem construct_aborts_iff_fetch_fails_witness :
    aborted (audio_construct (sampleWorld (CallResult.failure (some sampleError)))
        (some samplePath)) = true ∧
      aborted (audio_construct (sampleWorld (CallResult.success none))
        (some samplePath)) = true ∧
      ∃ self, constructed (audio_construct
        (sampleWorld (CallResult.success (some sampleProperties))) (some samplePath))
          = some self :=
  ⟨(construct_aborts_iff_fetch_fails (sampleWorld (CallResult.failure (some sampleError)))
      (DBusGConnection.mk 1) samplePath sampleProxy rfl rfl).1.mpr (Or.inl ⟨_, rfl⟩),
   (construct_aborts_iff_fetch_fails (sampleWorld (CallResult.success none))
      (DBusGConnection.mk 1) samplePath sampleProxy rfl rfl).1.mpr (Or.inr rfl),
   (construct_aborts_iff_fetch_fails (sampleWorld (CallResult.success (some sampleProperties)))
      (DBusGConnection.mk 1) samplePath sampleProxy rfl rfl).2 sampleProperties rfl⟩

/-- Appending one handler disconnection raises the count by one. -/
theorem count_disconnects_append_disconnect (l : List LibCall) (proxy : Option DBusGProxy)
    (signal_name : String) (handler : Callback) :
    count_disconnects (l ++ [LibCall.disconnect_signal proxy signal_name handler])
      = count_disconnects l + 1 := by
  induction l with
  | nil => rfl
  | cons a rest ih =>
    cases a <;> simp [count_disconnects, ih]

/-- The cached state after one operation. -/
theorem step_state (ws : World × Audio) (op : Op) :
    audio_get_state (step ws op).2
      = (match op with
        | .notify name value =>
          if name = "State" then g_value_dup_string value else audio_get_state ws.2
        | _ => audio_get_state ws.2) := by
  cases op with
  | notify name value =>
    by_cases h : name = "State" <;>
      simp [step, property_changed_handler, audio_get_state, h]
  | connect =>
    simp only [step, audio_connect, dbus_g_proxy_call]
    cases ws.1.lib.call ws.1.trace ws.2.priv.dbus_g_proxy "Connect" <;> rfl
  | disconnect =>
    simp only [step, audio_disconnect, dbus_g_proxy_call]
    cases ws.1.lib.call ws.1.trace ws.2.priv.dbus_g_proxy "Disconnect" <;> rfl
  | getProperties =>
    simp only [step, audio_get_properties, dbus_g_proxy_call]
    cases ws.1.lib.call ws.1.trace ws.2.priv.dbus_g_proxy "GetProperties" <;> rfl
  | getState => rfl
  | getDbusObjectPath => rfl

/-- The cached state after a sequence of operations. -/
theorem run_state (ops : List Op) (ws : World × Audio) :
    audio_get_state (run ws ops).2
      = (match lastStateNotification ops with
        | some v => g_value_dup_string v
        | none => audio_get_state ws.2) := by
  induction ops generalizing ws with
  | nil => rfl
  | cons op rest ih =>
    have hrun : run ws (op :: rest) = run (step ws op) rest := rfl
    rw [hrun, ih (step ws op), step_state]
    cases hl : lastStateNotification rest with
    | some v => simp [lastStateNotification, hl]
    | none =>
      cases op with
      | notify name value =>
        by_cases h : name = "State" <;> simp [lastStateNotification, hl, h]
      | connect => simp [lastStateNotification, hl]
      | disconnect => simp [lastStateNotification, hl]
      | getProperties => simp [lastStateNotification, hl]
      | getState => simp [lastStateNotification, hl]
      | getDbusObjectPath => simp [lastStateNotification, hl]

/-- C5: after any sequence of notifications and public calls run in order on an
object, `audio_get_state` gives the (string) value of the last notification of the
sequence whose key is "State", and the state the object started with when the
sequence has no such notification; `audio_connect`, `audio_disconnect` and
`audio_get_properties` return the instance unchanged. -/
theorem state_is_last_state_notification (w : World) (self : Audio) (ops : List Op) :
    audio_get_state (run (w, self) ops).2
        = (match lastStateNotification ops with
          | some v => g_value_dup_string v
          | none => audio_get_state self) ∧
      (∀ s : String, lastStateNotification ops = some (GValue.string (some s)) →
        audio_get_state (run (w, self) ops).2 = some s) ∧
      (lastStateNotification ops = none →
        audio_get_state (run (w, self) ops).2 = audio_get_state self) ∧
      (audio_connect w self).self = self ∧
      (audio_disconnect w self).self = self ∧
      (audio_get_properties w self).self = self := by
  have h := run_state ops (w, self)
  refine ⟨h, ?_, ?_, ?_, ?_, ?_⟩
  · intro s hs
    rw [h, hs]
    rfl
  · intro hn
    rw [h, hn]
  · simp only [audio_connect, dbus_g_proxy_call]
    cases w.lib.call w.trace self.priv.dbus_g_proxy "Connect" <;> rfl
  · simp only [audio_disconnect, dbus_g_proxy_call]
    cases w.lib.call w.trace self.priv.dbus_g_proxy "Disconnect" <;> rfl
  · simp only [audio_get_properties, dbus_g_proxy_call]
    cases w.lib.call w.trace self.priv.dbus_g_proxy "GetProperties" <;> rfl

theorem state_is_last_state_notification_witness :
    audio_get_state (run (sampleWorld (CallResult.failure (some sampleError)), sampleAudio)
        [Op.notify "State" (GValue.string (some "connecting")), Op.connect,
         Op.notify "State" (GValue.string (some "connected")),
         Op.notify "Connected" (GValue.boolean true), Op.getProperties, Op.getState]).2
      = some "connected" :=
  (state_is_last_state_notification (sampleWorld (CallResult.failure (some sampleError)))
    sampleAudio
    [Op.notify "State" (GValue.string (some "connecting")), Op.connect,
     Op.notify "State" (GValue.string (some "connected")),
     Op.notify "Connected" (GValue.boolean true), Op.getProperties, Op.getState]).2.1
    "connected" (by decide)

/-- C6: `audio_connect` and `audio_disconnect` each append exactly one library call,
the argument-less method call "Connect" resp. "Disconnect" on the object's proxy;
when that call fails with error `e` the error handed back is `e`, when it succeeds
no error is handed back; the instance (cached state, proxy and so object path) and
the local emissions are as before. -/
theorem connect_disconnect_call_once_and_propagate (w : World) (self : Audio) :
    ((audio_connect w self).world.trace
          = w.trace ++ [LibCall.call self.priv.dbus_g_proxy "Connect" [] []] ∧
        (∀ e : GError,
          w.lib.call w.trace self.priv.dbus_g_proxy "Connect"
              = CallResult.failure (some e) →
            (audio_connect w self).error = some e) ∧
        (∀ out, w.lib.call w.trace self.priv.dbus_g_proxy "Connect"
              = CallResult.success out →
            (audio_connect w self).error = none) ∧
        (audio_connect w self).self = self ∧
        (audio_connect w self).world.emitted = w.emitted) ∧
      ((audio_disconnect w self).world.trace
          = w.trace ++ [LibCall.call self.priv.dbus_g_proxy "Disconnect" [] []] ∧
        (∀ e : GError,
          w.lib.call w.trace self.priv.dbus_g_proxy "Disconnect"
              = CallResult.failure (some e) →
            (audio_disconnect w self).error = some e) ∧
        (∀ out, w.lib.call w.trace self.priv.dbus_g_proxy "Disconnect"
              = CallResult.success out →
            (audio_disconnect w self).error = none) ∧
        (audio_disconnect w self).self = self ∧
        (audio_disconnect w self).world.emitted = w.emitted) := by
  constructor
  · simp only [audio_connect, dbus_g_proxy_call]
    cases w.lib.call w.trace self.priv.dbus_g_proxy "Connect" <;> simp
  · simp only [audio_disconnect, dbus_g_proxy_call]
    cases w.lib.call w.trace self.priv.dbus_g_proxy "Disconnect" <;> simp

theorem connect_disconnect_call_once_and_propagate_witness :
    (audio_connect (sampleWorld (CallResult.failure (some sampleError))) sampleAudio).error
        = some sampleError ∧
      (audio_disconnect (sampleWorld (CallResult.success none)) sampleAudio).error = none ∧
      (audio_connect (sampleWorld (CallResult.failure (some sampleError)))
          sampleAudio).world.trace
        = [LibCall.call (some sampleProxy) "Connect" [] []] :=
  ⟨(connect_disconnect_call_once_and_propagate
      (sampleWorld (CallResult.failure (some sampleError))) sampleAudio).1.2.1 sampleError rfl,
   (connect_disconnect_call_once_and_propagate
      (sampleWorld (CallResult.success none)) sampleAudio).2.2.2.1 none rfl,
   (connect_disconnect_call_once_and_propagate
      (sampleWorld (CallResult.failure (some sampleError))) sampleAudio).1.1⟩

/-- C7: `audio_get_properties` makes one "GetProperties" call; when the call succeeds
with the mapping `m` it returns `m` itself and no error, when the call fails with
error `e` it returns NULL and hands back `e`; the instance is as before. -/
theorem get_properties_returns_remote_mapping (w : World) (self : Audio) :
    (audio_get_properties w self).world.trace
        = w.trace ++ [LibCall.call self.priv.dbus_g_proxy "GetProperties" []
            [GType.STRING_VARIANT_HASHTABLE]] ∧
      (∀ m : GHashTable,
        w.lib.call w.trace self.priv.dbus_g_proxy "GetProperties"
            = CallResult.success (some m) →
          (audio_get_properties w self).ret = some m ∧
            (audio_get_properties w self).error = none) ∧
      (∀ e : GError,
        w.lib.call w.trace self.priv.dbus_g_proxy "GetProperties"
            = CallResult.failure (some e) →
          (audio_get_properties w self).ret = none ∧
            (audio_get_properties w self).error = some e) ∧
      (audio_get_properties w self).self = self ∧
      audio_get_state (audio_get_properties w self).self = audio_get_state self := by
  simp only [audio_get_properties, dbus_g_proxy_call]
  cases w.lib.call w.trace self.priv.dbus_g_proxy "GetProperties" <;> simp

theorem get_properties_returns_remote_mapping_witness :
    (audio_get_properties (sampleWorld (CallResult.success (some sampleProperties)))
        sampleAudio).ret = some sampleProperties ∧
      (audio_get_properties (sampleWorld (CallResult.failure (some sampleError)))
        sampleAudio).ret = none ∧
      (audio_get_properties (sampleWorld (CallResult.failure (some sampleError)))
        sampleAudio).error = some sampleError :=
  ⟨((get_properties_returns_remote_mapping
      (sampleWorld (CallResult.success (some sampleProperties))) sampleAudio).2.1
        sampleProperties rfl).1,
   ((get_properties_returns_remote_mapping
      (sampleWorld (CallResult.failure (some sampleError))) sampleAudio).2.2.1
        sampleError rfl).1,
   ((get_properties_returns_remote_mapping
      (sampleWorld (CallResult.failure (some sampleError))) sampleAudio).2.2.1
        sampleError rfl).2⟩

/-- C8 (as stated, refuted): on a constructed object (one subscription made, no
disconnection yet) the teardown routine run twice disconnects the handler twice, not
once.  With a cached state string the second run disconnects again and then
releases the string a second time; with a NULL state both runs complete. -/
theorem dispose_twice_disconnects_twice :
    count_disconnects sampleLiveWorld.trace = 0 ∧
      count_disconnects
          (dispose_times 2 sampleLiveWorld (live_instance sampleAudio)).1.trace = 2 ∧
      (dispose_times 2 sampleLiveWorld (live_instance sampleAudio)).1.trace
        = sampleLiveWorld.trace
          ++ [LibCall.disconnect_signal (some sampleProxy) "PropertyChanged"
                Callback.property_changed_handler,
              LibCall.parent_dispose,
              LibCall.disconnect_signal (some sampleProxy) "PropertyChanged"
                Callback.property_changed_handler] ∧
      (dispose_times 2 sampleLiveWorld (live_instance sampleAudio)).2
        = Except.error "g_free(self->priv->state): storage already released" ∧
      count_disconnects
          (dispose_times 2 sampleLiveWorld (live_instance sampleNullStateAudio)).1.trace
        = 2 ∧
      (dispose_times 2 sampleLiveWorld (live_instance sampleNullStateAudio)).2
        = Except.ok { dbus_g_proxy := some sampleProxy, state := StatePtr.null } := by
  refine ⟨rfl, rfl, rfl, rfl, rfl, rfl⟩

/-- C8 (amended): the teardown routine, run on an instance not torn down before,
disconnects `property_changed_handler` from the "PropertyChanged" signal exactly
once, on whatever proxy pointer the object holds (NULL when no remote proxy was
bound, and whether or not the subscription was ever made); it then releases the
state string, leaving the field pointing to it, chains up and completes. -/
theorem dispose_disconnects_once (w : World) (self : Audio) :
    (audio_dispose w (live_instance self)).1.trace
        = w.trace ++ [LibCall.disconnect_signal self.priv.dbus_g_proxy "PropertyChanged"
            Callback.property_changed_handler, LibCall.parent_dispose] ∧
      count_disconnects (audio_dispose w (live_instance self)).1.trace
        = count_disconnects w.trace + 1 ∧
      (audio_dispose w (live_instance self)).2
        = Except.ok { dbus_g_proxy := self.priv.dbus_g_proxy
                      state := match self.priv.state with
                        | none => StatePtr.null
                        | some _ => StatePtr.freed } := by
  have hcount : ∀ l : List LibCall,
      count_disconnects (l ++ [LibCall.parent_dispose]) = count_disconnects l := by
    intro l
    induction l with
    | nil => rfl
    | cons a rest ih => cases a <;> simp [count_disconnects, ih]
  cases hs : self.priv.state with
  | none =>
    refine ⟨?_, ?_, ?_⟩
    · simp [audio_dispose, live_instance, hs, g_free, parent_class_dispose,
        dbus_g_proxy_disconnect_signal]
    · simp only [audio_dispose, live_instance, hs, g_free, parent_class_dispose,
        dbus_g_proxy_disconnect_signal]
      rw [hcount, count_disconnects_append_disconnect]
    · simp [audio_dispose, live_instance, hs, g_free]
  | some st =>
    refine ⟨?_, ?_, ?_⟩
    · simp [audio_dispose, live_instance, hs, g_free, parent_class_dispose,
        dbus_g_proxy_disconnect_signal]
    · simp only [audio_dispose, live_instance, hs, g_free, parent_class_dispose,
        dbus_g_proxy_disconnect_signal]
      rw [hcount, count_disconnects_append_disconnect]
    · simp [audio_dispose, live_instance, hs, g_free]

end BluezAudio
